import Mathlib

/-!
Verification of `audiomenu` (src/audiomenu.py), a dmenu-style utility that
selects the default PipeWire audio device.  The Python source is shallowly
embedded below: pure helpers become Lean functions; the external processes
(`pw-dump`, the menu picker, `wpctl set-default`) are modelled by a `World`
oracle supplying each call's exit code and standard output; Python exceptions
become an `Except PyExc` result; uncaught exceptions make the interpreter
exit non-zero.
-/

namespace Audiomenu

/-- JSON values as produced by `json.loads`.  Numbers are modelled as
integers: every number reaching the modelled code paths (`object.id`) is an
integer object id; float-valued fields (volume) are outside the modelled
paths. -/
inductive Json where
  | null : Json
  | bool (b : Bool) : Json
  | num (n : Int) : Json
  | str (s : String) : Json
  | arr (xs : List Json) : Json
  | obj (fields : List (String × Json)) : Json

/-- The Python exceptions that can arise on the modelled paths. -/
inductive PyExc where
  | keyError
  | typeError
  | calledProcessError
  | jsonDecodeError
  deriving DecidableEq

/-- Python subscripting `v[k]` with a string key: succeeds on a dict that has
the key, raises `KeyError` on a dict missing the key, and raises `TypeError`
on any non-dict value. -/
def dictGet : Json → String → Except PyExc Json
  | .obj fields, k =>
    match fields.lookup k with
    | some v => .ok v
    | none => .error .keyError
  | _, _ => .error .typeError

/-- Python `==` between a value and a string literal: true exactly when the
value is an equal string (no other Python value compares equal to a str). -/
def jsonEqStr : Json → String → Bool
  | .str t, s => t == s
  | _, _ => false

/-- `Direction = Enum("Direction", ["INPUT", "OUTPUT"])` -/
inductive Direction where
  | INPUT
  | OUTPUT
  deriving DecidableEq

/-- The `AudioDevice` dataclass.  `id` and `name` keep the dynamic `Json`
type: the Python code stores whatever values the lookups produced, without
checking their shape.  `volume` is `Option Json` (its float payload is never
produced on the modelled paths). -/
structure AudioDevice where
  id : Json
  name : Json
  direction : Direction
  muted : Option Bool := none
  volume : Option Json := none

/-- The body of the `try:` block of `audio_device_from_pw_node`, before the
`except KeyError` handler is applied. -/
def audio_device_body (node : Json) : Except PyExc (Option AudioDevice) :=
  match dictGet node "type" with
  | .error e => .error e
  | .ok ty =>
    if jsonEqStr ty "PipeWire:Interface:Node" = false then .ok none
    else
      match dictGet node "info" with
      | .error e => .error e
      | .ok info =>
        match dictGet info "props" with
        | .error e => .error e
        | .ok props =>
          match dictGet props "object.id" with
          | .error e => .error e
          | .ok id =>
            match dictGet props "node.description" with
            | .error e => .error e
            | .ok name =>
              match dictGet props "media.class" with
              | .error e => .error e
              | .ok (Json.str "Audio/Sink") =>
                .ok (some { id := id, name := name, direction := .OUTPUT })
              | .ok (Json.str "Audio/Source") =>
                .ok (some { id := id, name := name, direction := .INPUT })
              | .ok _ => .ok none

/-- `audio_device_from_pw_node`: the try body with `except KeyError:
return None`.  Any other exception (in particular `TypeError` from
subscripting a non-dict) propagates. -/
def audio_device_from_pw_node (node : Json) : Except PyExc (Option AudioDevice) :=
  match audio_device_body node with
  | .error .keyError => .ok none
  | r => r

example :
    audio_device_from_pw_node (Json.obj
      [("type", Json.str "PipeWire:Interface:Node"),
       ("info", Json.obj [("props", Json.obj
          [("object.id", Json.num 42),
           ("node.description", Json.str "Headset Mic"),
           ("media.class", Json.str "Audio/Source")])])]) =
    Except.ok (some
      { id := Json.num 42, name := Json.str "Headset Mic",
        direction := Direction.INPUT }) := by rfl

example :
    audio_device_from_pw_node (Json.obj
      [("type", Json.str "PipeWire:Interface:Node"),
       ("info", Json.num 5)]) = Except.error PyExc.typeError := by rfl

example :
    audio_device_from_pw_node (Json.obj
      [("type", Json.str "PipeWire:Interface:Node"),
       ("info", Json.obj [("props", Json.obj [])])]) = Except.ok none := by rfl

/-- The result of one external process call: exit code and captured
standard output. -/
structure ProcResult where
  exitcode : Nat
  stdout : String

/-- Oracle for the external world: the outcome of running `pw-dump`, of
running the menu picker on a given standard input, and the exit code of
`wpctl set-default <id>`. -/
structure World where
  pw_dump : ProcResult
  menu : String → ProcResult
  set_default_exit : String → Nat

/-- The list comprehension of `get_audio_devices`: parse each node in order,
keep the successful parses; an exception raised while parsing a node
propagates. -/
def parse_nodes : List Json → Except PyExc (List AudioDevice)
  | [] => .ok []
  | node :: rest =>
    match audio_device_from_pw_node node with
    | .error e => .error e
    | .ok none => parse_nodes rest
    | .ok (some d) =>
      match parse_nodes rest with
      | .error e => .error e
      | .ok ds => .ok (d :: ds)

/-- `get_audio_devices`, parameterised by `loads`, the embedding of
`json.loads` specialised to decoding the dump as a list of records
(`JSONDecodeError` on invalid JSON).  `run(["pw-dump"], check=True)` raises
`CalledProcessError` on a non-zero exit. -/
def get_audio_devices (loads : String → Except PyExc (List Json)) (w : World) :
    Except PyExc (List AudioDevice) :=
  if w.pw_dump.exitcode ≠ 0 then .error .calledProcessError
  else
    match loads w.pw_dump.stdout with
    | .error e => .error e
    | .ok dump => parse_nodes dump

/-- The `is_input` predicate of `get_inputs`. -/
def is_input (dev : AudioDevice) : Bool := dev.direction = Direction.INPUT

/-- The `is_output` predicate of `get_outputs`. -/
def is_output (dev : AudioDevice) : Bool := dev.direction = Direction.OUTPUT

/-- `get_inputs`. -/
def get_inputs (loads : String → Except PyExc (List Json)) (w : World) :
    Except PyExc (List AudioDevice) :=
  match get_audio_devices loads w with
  | .error e => .error e
  | .ok devs => .ok (devs.filter is_input)

/-- `get_outputs`. -/
def get_outputs (loads : String → Except PyExc (List Json)) (w : World) :
    Except PyExc (List AudioDevice) :=
  match get_audio_devices loads w with
  | .error e => .error e
  | .ok devs => .ok (devs.filter is_output)

/-- Python `s.split(" ")` on the character list: splits at every space,
keeping empty fields; the result is never the empty list. -/
def pySplitSpace : List Char → List (List Char)
  | [] => [[]]
  | c :: cs =>
    if c = ' ' then [] :: pySplitSpace cs
    else
      match pySplitSpace cs with
      | [] => [[c]]
      | t :: ts => (c :: t) :: ts

/-- Python `s.split(" ")[0]`: the text before the first space (the whole
string when it has no space). -/
def split_first (s : String) : String :=
  match pySplitSpace s.data with
  | [] => ""
  | t :: _ => String.mk t

example : split_first "42 Headset Mic" = "42" := by rfl
example : split_first "rofi -dmenu" = "rofi" := by rfl
example : split_first "" = "" := by rfl

/-- Decimal digits of a natural number, most significant first, as Python
`str` renders them. -/
def pyNatDigits (n : Nat) : List Char :=
  if _ : n < 10 then [Nat.digitChar n]
  else pyNatDigits (n / 10) ++ [Nat.digitChar (n % 10)]
decreasing_by
  exact Nat.div_lt_self (Nat.pos_of_ne_zero (by omega)) (by omega)

/-- Python `str(i)` for an int: optional minus sign followed by decimal
digits. -/
def pyIntStr (i : Int) : String :=
  if i < 0 then String.mk ('-' :: pyNatDigits i.natAbs)
  else String.mk (pyNatDigits i.toNat)

example : pyIntStr 42 = "42" := by
  simp [pyIntStr, pyNatDigits, Nat.digitChar]
example : pyIntStr (-137) = "-137" := by
  simp [pyIntStr, pyNatDigits, Nat.digitChar]
example : pyIntStr 0 = "0" := by
  simp [pyIntStr, pyNatDigits, Nat.digitChar]

/-- Python f-string conversion of the dynamic values stored in an
`AudioDevice`.  Only strings and integers reach the modelled formatting
paths (ids and descriptions); container formatting is not modelled. -/
def pyStr : Json → String
  | .str s => s
  | .num n => pyIntStr n
  | .bool true => "True"
  | .bool false => "False"
  | .null => "None"
  | .arr _ => ""
  | .obj _ => ""

/-- One menu line: `f"{dev.id} {dev.name}"`. -/
def render_line (dev : AudioDevice) : String :=
  pyStr dev.id ++ " " ++ pyStr dev.name

/-- `"\n".join(...)` over the rendered device lines. -/
def render_menu_input (devs : List AudioDevice) : String :=
  String.intercalate "\n" (devs.map render_line)

/-- The external process calls a command handler performs, in order. -/
inductive ExtCall where
  | dump
  | menuCall (stdin : String)
  | setDefault (id : String)
  deriving DecidableEq

/-- Shared tail of both handlers, from the menu invocation on (this part
sits inside the `try` block in both): run the menu with the rendered lines
as stdin, take the text before the first space of its stdout, and run
`wpctl set-default` on it.  Returns the trace of external calls made after
the listing, and the outcome before the `except CalledProcessError`
handler. -/
def menu_then_set_default (w : World) (sources : String) :
    List ExtCall × Except PyExc Unit :=
  let m := w.menu sources
  if m.exitcode ≠ 0 then
    ([.menuCall sources], .error .calledProcessError)
  else
    let id := split_first m.stdout
    if w.set_default_exit id ≠ 0 then
      ([.menuCall sources, .setDefault id], .error .calledProcessError)
    else
      ([.menuCall sources, .setDefault id], .ok ())

/-- `except CalledProcessError: pass` applied to a handler outcome. -/
def swallow_cpe : Except PyExc Unit → Except PyExc Unit
  | .error .calledProcessError => .ok ()
  | r => r

/-- The `select_source` command handler.  The device listing happens INSIDE
the `try` block (the join over `get_inputs()` is the first statement of the
`try`), so a `CalledProcessError` raised by the dump call is caught here
too.  Returns the trace of external calls and the final outcome. -/
def select_source (loads : String → Except PyExc (List Json)) (w : World) :
    List ExtCall × Except PyExc Unit :=
  match get_inputs loads w with
  | .error e => ([.dump], swallow_cpe (.error e))
  | .ok devs =>
    let sources := render_menu_input devs
    let step := menu_then_set_default w sources
    (.dump :: step.1, swallow_cpe step.2)

/-- The `select_sink` command handler.  Unlike `select_source`, the device
listing happens BEFORE the `try` block, so an exception from the dump call
propagates uncaught. -/
def select_sink (loads : String → Except PyExc (List Json)) (w : World) :
    List ExtCall × Except PyExc Unit :=
  match get_outputs loads w with
  | .error e => ([.dump], .error e)
  | .ok devs =>
    let sources := render_menu_input devs
    let step := menu_then_set_default w sources
    (.dump :: step.1, swallow_cpe step.2)

/-- The interpreter's exit code for a handler outcome: 0 on normal return,
non-zero (1, with a traceback printed) on an uncaught exception. -/
def process_exit : Except PyExc Unit → Nat
  | .ok _ => 0
  | .error _ => 1

/-- The fixed candidate list tried by `find_menuprog`. -/
def menu_candidates : List String :=
  ["dmenu", "dmenu-wl", "rofi -dmenu", "fuzzel --dmenu"]

/-- `find_menuprog`, parameterised by `which`, the embedding of
`shutil.which(...) is not None`: the loop returns the first candidate whose
first word is found on the execution path, `None` when the loop falls
through. -/
def find_menuprog (which : String → Bool) : Option String :=
  menu_candidates.find? (fun prog => which (split_first prog))

/-- Python `shlex.split` restricted to the quote-free, space-separated
command strings this program produces (the candidate list and simple
`--menu` values): split on spaces, dropping empty tokens. -/
def shlex_split (s : String) : List String :=
  (pySplitSpace s.data).filterMap (fun t => if t = [] then none else some (String.mk t))

example : shlex_split "rofi -dmenu" = ["rofi", "-dmenu"] := by rfl
example : shlex_split "dmenu" = ["dmenu"] := by rfl

/-- The error raised by the `audiomenu` group callback when no menu program
is resolvable (`click.UsageError`); click exits with code 2. -/
inductive CliError where
  | usageError
  deriving DecidableEq

/-- The `audiomenu` group callback: resolve the menu command from the
`--menu` option (click evaluates the `find_menuprog` default when the
option is absent), raise a usage error when the result is `None`, otherwise
shell-tokenize it into the argument vector stashed as `MENUPROG`. -/
def audiomenu (which : String → Bool) (menu_opt : Option String) :
    Except CliError (List String) :=
  let menu := match menu_opt with
    | some m => some m
    | none => find_menuprog which
  match menu with
  | none => .error .usageError
  | some m => .ok (shlex_split m)

/-- click's process exit code for the group callback outcome: usage errors
exit with code 2. -/
def cli_exit {α : Type} : Except CliError α → Nat
  | .ok _ => 0
  | .error .usageError => 2

theorem jsonEqStr_true_iff (v : Json) (s : String) :
    jsonEqStr v s = true ↔ v = Json.str s := by
  cases v <;> simp [jsonEqStr]

/-- C4: every raw node record whose interface-type field is not the tag
"PipeWire:Interface:Node" (present with a different value, or absent) is
rejected: the Device Parser returns None. -/
theorem c4_reject_non_node (fields : List (String × Json))
    (h : ∀ v, fields.lookup "type" = some v → v ≠ Json.str "PipeWire:Interface:Node") :
    audio_device_from_pw_node (Json.obj fields) = Except.ok none := by
  unfold audio_device_from_pw_node audio_device_body
  cases hl : fields.lookup "type" with
  | none => simp [dictGet, hl]
  | some v =>
    have hv : jsonEqStr v "PipeWire:Interface:Node" = false := by
      cases hb : jsonEqStr v "PipeWire:Interface:Node" with
      | false => rfl
      | true => exact absurd ((jsonEqStr_true_iff v _).mp hb) (h v hl)
    simp [dictGet, hl, hv]

theorem c4_reject_non_node_witness :
    audio_device_from_pw_node (Json.obj [("type", Json.str "PipeWire:Interface:Device")]) =
      Except.ok none := by
  apply c4_reject_non_node
  intro v hv
  simp [List.lookup] at hv
  subst hv
  simp

/-- C3: for node records carrying the node tag and all required fields,
media class "Audio/Sink" yields a device with direction OUTPUT, and
"Audio/Source" one with direction INPUT, each with muted and volume unset;
any other media-class value is rejected with None. -/
theorem c3_direction_mapping (fields g p : List (String × Json)) (idv namev mc : Json)
    (ht : fields.lookup "type" = some (Json.str "PipeWire:Interface:Node"))
    (hi : fields.lookup "info" = some (Json.obj g))
    (hp : g.lookup "props" = some (Json.obj p))
    (hid : p.lookup "object.id" = some idv)
    (hname : p.lookup "node.description" = some namev)
    (hmc : p.lookup "media.class" = some mc) :
    (mc = Json.str "Audio/Sink" →
      audio_device_from_pw_node (Json.obj fields) =
        Except.ok (some { id := idv, name := namev, direction := Direction.OUTPUT,
                          muted := none, volume := none })) ∧
    (mc = Json.str "Audio/Source" →
      audio_device_from_pw_node (Json.obj fields) =
        Except.ok (some { id := idv, name := namev, direction := Direction.INPUT,
                          muted := none, volume := none })) ∧
    (mc ≠ Json.str "Audio/Sink" → mc ≠ Json.str "Audio/Source" →
      audio_device_from_pw_node (Json.obj fields) = Except.ok none) := by
  unfold audio_device_from_pw_node audio_device_body
  simp only [dictGet, ht, hi, hp, hid, hname, hmc, jsonEqStr]
  refine ⟨?_, ?_, ?_⟩
  · intro hmcv; subst hmcv; rfl
  · intro hmcv; subst hmcv; rfl
  · intro h1 h2
    cases mc with
    | str s =>
      have hs1 : s ≠ "Audio/Sink" := fun hc => h1 (by rw [hc])
      have hs2 : s ≠ "Audio/Source" := fun hc => h2 (by rw [hc])
      simp [hs1, hs2]
    | null => rfl
    | bool b => cases b <;> rfl
    | num n => rfl
    | arr xs => rfl
    | obj fs => rfl

theorem c3_direction_mapping_witness :
    audio_device_from_pw_node (Json.obj
      [("type", Json.str "PipeWire:Interface:Node"),
       ("info", Json.obj [("props", Json.obj
          [("object.id", Json.num 42),
           ("node.description", Json.str "Headset Mic"),
           ("media.class", Json.str "Audio/Sink")])])]) =
    Except.ok (some { id := Json.num 42, name := Json.str "Headset Mic",
                      direction := Direction.OUTPUT, muted := none, volume := none }) :=
  (c3_direction_mapping
      [("type", Json.str "PipeWire:Interface:Node"),
       ("info", Json.obj [("props", Json.obj
          [("object.id", Json.num 42),
           ("node.description", Json.str "Headset Mic"),
           ("media.class", Json.str "Audio/Sink")])])]
      [("props", Json.obj
          [("object.id", Json.num 42),
           ("node.description", Json.str "Headset Mic"),
           ("media.class", Json.str "Audio/Sink")])]
      [("object.id", Json.num 42),
       ("node.description", Json.str "Headset Mic"),
       ("media.class", Json.str "Audio/Sink")]
      (Json.num 42) (Json.str "Headset Mic") (Json.str "Audio/Sink")
      rfl rfl rfl rfl rfl rfl).1 rfl

/-- A node record whose "info" field is present but not a mapping. -/
def nonMappingInfoNode : Json :=
  Json.obj [("type", Json.str "PipeWire:Interface:Node"), ("info", Json.num 5)]

/-- C2 fails as stated: on a record whose intermediate "info" field is not a
mapping, the Device Parser does not return None; subscripting the non-dict
raises an uncaught TypeError (only KeyError is caught). -/
theorem c2_counterexample :
    audio_device_from_pw_node nonMappingInfoNode = Except.error PyExc.typeError ∧
    audio_device_from_pw_node nonMappingInfoNode ≠ Except.ok none := by
  refine ⟨rfl, ?_⟩
  intro hc
  rw [show audio_device_from_pw_node nonMappingInfoNode = Except.error PyExc.typeError
        from rfl] at hc
  exact Except.noConfusion hc

/-- C2 (amended): for every node record whose intermediate fields, when
present, are mappings, and in which at least one required nested field
(object.id, node.description, media.class) is absent whenever the
traversal reaches the props mapping, the Device Parser returns None and
never raises: every missing key becomes a caught KeyError. -/
theorem c2_missing_fields_return_none (fields : List (String × Json))
    (hinfo : ∀ v, fields.lookup "info" = some v → ∃ g, v = Json.obj g)
    (hprops : ∀ g v, fields.lookup "info" = some (Json.obj g) →
        g.lookup "props" = some v → ∃ p, v = Json.obj p)
    (hmiss : ∀ g p, fields.lookup "info" = some (Json.obj g) →
        g.lookup "props" = some (Json.obj p) →
        p.lookup "object.id" = none ∨ p.lookup "node.description" = none ∨
        p.lookup "media.class" = none) :
    audio_device_from_pw_node (Json.obj fields) = Except.ok none := by
  unfold audio_device_from_pw_node audio_device_body
  cases hl : fields.lookup "type" with
  | none => simp [dictGet, hl]
  | some tv =>
    cases hb : jsonEqStr tv "PipeWire:Interface:Node" with
    | false => simp [dictGet, hl, hb]
    | true =>
      cases hli : fields.lookup "info" with
      | none => simp [dictGet, hl, hb, hli]
      | some iv =>
        obtain ⟨g, rfl⟩ := hinfo iv hli
        cases hlp : g.lookup "props" with
        | none => simp [dictGet, hl, hb, hli, hlp]
        | some pv =>
          obtain ⟨p, rfl⟩ := hprops g pv hli hlp
          rcases hmiss g p hli hlp with hm | hm | hm
          · simp [dictGet, hl, hb, hli, hlp, hm]
          · cases hlid : p.lookup "object.id" with
            | none => simp [dictGet, hl, hb, hli, hlp, hlid]
            | some idv => simp [dictGet, hl, hb, hli, hlp, hlid, hm]
          · cases hlid : p.lookup "object.id" with
            | none => simp [dictGet, hl, hb, hli, hlp, hlid]
            | some idv =>
              cases hldesc : p.lookup "node.description" with
              | none => simp [dictGet, hl, hb, hli, hlp, hlid, hldesc]
              | some dv => simp [dictGet, hl, hb, hli, hlp, hlid, hldesc, hm]

theorem c2_missing_fields_return_none_witness :
    audio_device_from_pw_node (Json.obj
      [("type", Json.str "PipeWire:Interface:Node"),
       ("info", Json.obj [("props", Json.obj [])])]) = Except.ok none := by
  apply c2_missing_fields_return_none
  · intro v hv
    simp [List.lookup] at hv
    subst hv
    exact ⟨_, rfl⟩
  · intro g v hg hv
    simp [List.lookup] at hg hv
    subst hg
    simp [List.lookup] at hv
    subst hv
    exact ⟨_, rfl⟩
  · intro g p hg hp
    simp [List.lookup] at hg
    subst hg
    simp [List.lookup] at hp
    subst hp
    left
    rfl

/-- A `loads` oracle decoding every dump as the empty record list. -/
def loads_empty : String → Except PyExc (List Json) := fun _ => Except.ok []

/-- A world in which `pw-dump` exits with code 1. -/
def dump_fail_world : World :=
  { pw_dump := { exitcode := 1, stdout := "" },
    menu := fun _ => { exitcode := 0, stdout := "" },
    set_default_exit := fun _ => 0 }

/-- C1 fails on the select-source path: when pw-dump exits non-zero, the
`CalledProcessError` is raised inside the handler's try block (the listing
join is its first statement) and caught by `except CalledProcessError:
pass`, so select_source returns normally and the process exits 0 with no
message.  The same failure in select_sink, whose listing happens before the
try block, propagates and exits non-zero as the claim states. -/
theorem c1_dump_failure_swallowed_in_select_source :
    select_source loads_empty dump_fail_world = ([ExtCall.dump], Except.ok ()) ∧
    process_exit (select_source loads_empty dump_fail_world).2 = 0 ∧
    select_sink loads_empty dump_fail_world =
      ([ExtCall.dump], Except.error PyExc.calledProcessError) ∧
    process_exit (select_sink loads_empty dump_fail_world).2 = 1 :=
  ⟨rfl, rfl, rfl, rfl⟩

/-- C7: when the device listing succeeds, a non-zero exit of the menu picker
leaves the trace without any set-default call and the handler returns
normally (process exit 0), for both subcommands; and when the menu succeeds
but the default-setter exits non-zero, that failure is likewise swallowed
and the process exits 0. -/
theorem c7_cancel_and_setter_failure_swallowed
    (loads : String → Except PyExc (List Json)) (w : World)
    (devsI devsO : List AudioDevice)
    (hI : get_inputs loads w = Except.ok devsI)
    (hO : get_outputs loads w = Except.ok devsO) :
    ((w.menu (render_menu_input devsI)).exitcode ≠ 0 →
      select_source loads w =
        ([ExtCall.dump, ExtCall.menuCall (render_menu_input devsI)], Except.ok ()) ∧
      process_exit (select_source loads w).2 = 0) ∧
    ((w.menu (render_menu_input devsO)).exitcode ≠ 0 →
      select_sink loads w =
        ([ExtCall.dump, ExtCall.menuCall (render_menu_input devsO)], Except.ok ()) ∧
      process_exit (select_sink loads w).2 = 0) ∧
    ((w.menu (render_menu_input devsI)).exitcode = 0 →
      w.set_default_exit (split_first (w.menu (render_menu_input devsI)).stdout) ≠ 0 →
      process_exit (select_source loads w).2 = 0) ∧
    ((w.menu (render_menu_input devsO)).exitcode = 0 →
      w.set_default_exit (split_first (w.menu (render_menu_input devsO)).stdout) ≠ 0 →
      process_exit (select_sink loads w).2 = 0) := by
  unfold select_source select_sink
  rw [hI, hO]
  refine ⟨?_, ?_, ?_, ?_⟩
  · intro hm
    simp [menu_then_set_default, hm, swallow_cpe, process_exit]
  · intro hm
    simp [menu_then_set_default, hm, swallow_cpe, process_exit]
  · intro hm hs
    simp [menu_then_set_default, hm, hs, swallow_cpe, process_exit]
  · intro hm hs
    simp [menu_then_set_default, hm, hs, swallow_cpe, process_exit]

/-- A world in which the menu picker exits with code 1 (user cancel). -/
def cancel_world : World :=
  { pw_dump := { exitcode := 0, stdout := "[]" },
    menu := fun _ => { exitcode := 1, stdout := "" },
    set_default_exit := fun _ => 0 }

theorem c7_cancel_and_setter_failure_swallowed_witness :
    select_source loads_empty cancel_world =
      ([ExtCall.dump, ExtCall.menuCall ""], Except.ok ()) ∧
    process_exit (select_source loads_empty cancel_world).2 = 0 :=
  (c7_cancel_and_setter_failure_swallowed loads_empty cancel_world [] [] rfl rfl).1
    (by decide)

/-- A world in which the menu picker succeeds and emits a selection whose
text before the first space is not numeric. -/
def foo_menu_world : World :=
  { pw_dump := { exitcode := 0, stdout := "[]" },
    menu := fun _ => { exitcode := 0, stdout := "foo bar" },
    set_default_exit := fun _ => 0 }

/-- C8 fails as stated: when the menu output's text before the first space
is not a parseable device id, no parsing error is raised at all —
select_source completes normally (process exit 0) and the unvalidated text
is passed straight to the default-setter. -/
theorem c8_counterexample :
    select_source loads_empty foo_menu_world =
      ([ExtCall.dump, ExtCall.menuCall "", ExtCall.setDefault "foo"], Except.ok ()) ∧
    process_exit (select_source loads_empty foo_menu_world).2 = 0 :=
  ⟨rfl, rfl⟩

/-- C8 (amended): in the select_source path, whatever the menu outputs, the
text before its first space — parseable as an id or not — is never parsed
as an integer: it is passed verbatim as the argument of the default-setter,
and the handler returns normally (a failing setter raises only
CalledProcessError, which is caught). -/
theorem c8_selection_text_passed_unparsed
    (loads : String → Except PyExc (List Json)) (w : World)
    (devs : List AudioDevice)
    (h : get_inputs loads w = Except.ok devs)
    (hm : (w.menu (render_menu_input devs)).exitcode = 0) :
    select_source loads w =
      ([ExtCall.dump, ExtCall.menuCall (render_menu_input devs),
        ExtCall.setDefault (split_first (w.menu (render_menu_input devs)).stdout)],
       Except.ok ()) := by
  unfold select_source
  rw [h]
  by_cases hs :
      w.set_default_exit (split_first (w.menu (render_menu_input devs)).stdout) ≠ 0
  · simp [menu_then_set_default, hm, hs, swallow_cpe]
  · simp [menu_then_set_default, hm, hs, swallow_cpe]

theorem c8_selection_text_passed_unparsed_witness :
    select_source loads_empty foo_menu_world =
      ([ExtCall.dump, ExtCall.menuCall "", ExtCall.setDefault "foo"], Except.ok ()) :=
  c8_selection_text_passed_unparsed loads_empty foo_menu_world [] rfl rfl

/-- C10: when the filtered device list is empty for both subcommands, the
menu picker is still invoked, with an empty standard input, rather than the
selection being short-circuited. -/
theorem menuCall_mem_step (w : World) (sources : String) :
    ExtCall.menuCall sources ∈ (menu_then_set_default w sources).1 := by
  unfold menu_then_set_default
  by_cases hm : (w.menu sources).exitcode ≠ 0
  · simp [hm]
  · by_cases hs : w.set_default_exit (split_first (w.menu sources).stdout) ≠ 0
    · simp [hm, hs]
    · simp [hm, hs]

theorem c10_empty_list_still_invokes_menu
    (loads : String → Except PyExc (List Json)) (w : World)
    (h0 : get_inputs loads w = Except.ok [])
    (h1 : get_outputs loads w = Except.ok []) :
    ExtCall.menuCall "" ∈ (select_source loads w).1 ∧
    ExtCall.menuCall "" ∈ (select_sink loads w).1 := by
  constructor
  · unfold select_source
    rw [h0]
    exact List.mem_cons_of_mem _ (menuCall_mem_step w (render_menu_input []))
  · unfold select_sink
    rw [h1]
    exact List.mem_cons_of_mem _ (menuCall_mem_step w (render_menu_input []))

theorem c10_empty_list_still_invokes_menu_witness :
    ExtCall.menuCall "" ∈ (select_source loads_empty cancel_world).1 ∧
    ExtCall.menuCall "" ∈ (select_sink loads_empty cancel_world).1 :=
  c10_empty_list_still_invokes_menu loads_empty cancel_world rfl rfl

theorem is_output_eq_not_is_input (d : AudioDevice) : is_output d = !is_input d := by
  cases hd : d.direction <;> simp [is_input, is_output, hd]

/-- C5: the input and output listings are the full device listing filtered
by direction; each is an order-preserving sublist of the device listing,
together they are a permutation of it (the partition is exhaustive: every
parsed device has direction INPUT or OUTPUT), and no device value lies in
both filtered lists. -/
theorem c5_partition (loads : String → Except PyExc (List Json)) (w : World)
    (devs : List AudioDevice)
    (h : get_audio_devices loads w = Except.ok devs) :
    get_inputs loads w = Except.ok (devs.filter is_input) ∧
    get_outputs loads w = Except.ok (devs.filter is_output) ∧
    List.Sublist (devs.filter is_input) devs ∧
    List.Sublist (devs.filter is_output) devs ∧
    List.Perm (devs.filter is_input ++ devs.filter is_output) devs ∧
    (∀ d ∈ devs, is_input d = true ∨ is_output d = true) ∧
    (∀ d, d ∈ devs.filter is_input → d ∉ devs.filter is_output) := by
  refine ⟨?_, ?_, List.filter_sublist devs, List.filter_sublist devs, ?_, ?_, ?_⟩
  · unfold get_inputs
    rw [h]
  · unfold get_outputs
    rw [h]
  · have hco : devs.filter is_output = devs.filter (fun x => !is_input x) :=
      List.filter_congr (fun x _ => is_output_eq_not_is_input x)
    rw [hco]
    exact List.filter_append_perm is_input devs
  · intro d _
    cases hdir : d.direction
    · exact Or.inl (by simp [is_input, hdir])
    · exact Or.inr (by simp [is_output, hdir])
  · intro d hin hout
    rw [List.mem_filter] at hin hout
    have h2 := hout.2
    rw [is_output_eq_not_is_input, hin.2] at h2
    exact Bool.noConfusion h2

/-- A node record for an output device (id 51, "Speakers"). -/
def sink_node : Json :=
  Json.obj [("type", Json.str "PipeWire:Interface:Node"),
    ("info", Json.obj [("props", Json.obj
      [("object.id", Json.num 51),
       ("node.description", Json.str "Speakers"),
       ("media.class", Json.str "Audio/Sink")])])]

/-- A node record for an input device (id 42, "Headset Mic"). -/
def source_node : Json :=
  Json.obj [("type", Json.str "PipeWire:Interface:Node"),
    ("info", Json.obj [("props", Json.obj
      [("object.id", Json.num 42),
       ("node.description", Json.str "Headset Mic"),
       ("media.class", Json.str "Audio/Source")])])]

/-- A non-node record (ignored by the parser). -/
def port_node : Json := Json.obj [("type", Json.str "PipeWire:Interface:Port")]

/-- A `loads` oracle decoding every dump as a sink, a port and a source
record. -/
def loads_sample : String → Except PyExc (List Json) := fun _ =>
  Except.ok [sink_node, port_node, source_node]

/-- A world in which `pw-dump` succeeds. -/
def dump_ok_world : World :=
  { pw_dump := { exitcode := 0, stdout := "[]" },
    menu := fun _ => { exitcode := 1, stdout := "" },
    set_default_exit := fun _ => 0 }

/-- The devices of the sample dump. -/
def sample_devices : List AudioDevice :=
  [{ id := Json.num 51, name := Json.str "Speakers", direction := Direction.OUTPUT,
     muted := none, volume := none },
   { id := Json.num 42, name := Json.str "Headset Mic", direction := Direction.INPUT,
     muted := none, volume := none }]

theorem c5_partition_witness :
    get_inputs loads_sample dump_ok_world =
      Except.ok (sample_devices.filter is_input) ∧
    get_outputs loads_sample dump_ok_world =
      Except.ok (sample_devices.filter is_output) ∧
    List.Sublist (sample_devices.filter is_input) sample_devices ∧
    List.Sublist (sample_devices.filter is_output) sample_devices ∧
    List.Perm (sample_devices.filter is_input ++ sample_devices.filter is_output)
      sample_devices ∧
    (∀ d ∈ sample_devices, is_input d = true ∨ is_output d = true) ∧
    (∀ d, d ∈ sample_devices.filter is_input →
      d ∉ sample_devices.filter is_output) :=
  c5_partition loads_sample dump_ok_world sample_devices rfl

/-- C9: with no `--menu` option, resolution probes the first word of each
candidate in the fixed order dmenu, dmenu-wl, "rofi -dmenu",
"fuzzel --dmenu" and picks the first hit; when none is on the execution
path the group callback raises a usage error and the CLI exits non-zero. -/
theorem c9_menu_resolution (which : String → Bool) :
    (which "dmenu" = true → find_menuprog which = some "dmenu") ∧
    (which "dmenu" = false → which "dmenu-wl" = true →
      find_menuprog which = some "dmenu-wl") ∧
    (which "dmenu" = false → which "dmenu-wl" = false → which "rofi" = true →
      find_menuprog which = some "rofi -dmenu") ∧
    (which "dmenu" = false → which "dmenu-wl" = false → which "rofi" = false →
      which "fuzzel" = true → find_menuprog which = some "fuzzel --dmenu") ∧
    (which "dmenu" = false → which "dmenu-wl" = false → which "rofi" = false →
      which "fuzzel" = false →
      find_menuprog which = none ∧
      audiomenu which none = Except.error CliError.usageError ∧
      cli_exit (audiomenu which none) ≠ 0) := by
  have e1 : split_first "dmenu" = "dmenu" := rfl
  have e2 : split_first "dmenu-wl" = "dmenu-wl" := rfl
  have e3 : split_first "rofi -dmenu" = "rofi" := rfl
  have e4 : split_first "fuzzel --dmenu" = "fuzzel" := rfl
  refine ⟨?_, ?_, ?_, ?_, ?_⟩
  · intro h1
    simp [find_menuprog, menu_candidates, List.find?, e1, h1]
  · intro h1 h2
    simp [find_menuprog, menu_candidates, List.find?, e1, e2, h1, h2]
  · intro h1 h2 h3
    simp [find_menuprog, menu_candidates, List.find?, e1, e2, e3, h1, h2, h3]
  · intro h1 h2 h3 h4
    simp [find_menuprog, menu_candidates, List.find?, e1, e2, e3, e4, h1, h2, h3, h4]
  · intro h1 h2 h3 h4
    have hf : find_menuprog which = none := by
      simp [find_menuprog, menu_candidates, List.find?, e1, e2, e3, e4, h1, h2, h3, h4]
    refine ⟨hf, ?_, ?_⟩
    · simp [audiomenu, hf]
    · simp [audiomenu, hf, cli_exit]

theorem c9_menu_resolution_witness :
    find_menuprog (fun s => s == "rofi") = some "rofi -dmenu" :=
  (c9_menu_resolution (fun s => s == "rofi")).2.2.1 rfl rfl rfl

/-- The numeric value of a decimal digit character. -/
def digitVal (c : Char) : Nat := c.toNat - 48

/-- The value of a most-significant-first decimal digit list. -/
def decimalVal (cs : List Char) : Nat :=
  cs.foldl (fun acc c => acc * 10 + digitVal c) 0

/-- Decoder realising exact id recovery from the selected text: an optional
leading minus sign followed by decimal digits. -/
def recover_int (s : String) : Int :=
  match s.data with
  | '-' :: rest => -(decimalVal rest : Int)
  | cs => (decimalVal cs : Int)

theorem digitChar_isDigit {m : Nat} (h : m < 10) :
    (Nat.digitChar m).isDigit = true := by
  interval_cases m <;> decide

theorem digitVal_digitChar {m : Nat} (h : m < 10) :
    digitVal (Nat.digitChar m) = m := by
  interval_cases m <;> decide

theorem pyNatDigits_isDigit (n : Nat) : ∀ c ∈ pyNatDigits n, c.isDigit = true := by
  induction n using Nat.strong_induction_on with
  | _ n ih =>
    rw [pyNatDigits]
    split
    · rename_i h
      intro c hc
      simp at hc
      subst hc
      exact digitChar_isDigit h
    · rename_i h
      intro c hc
      rw [List.mem_append] at hc
      rcases hc with hc | hc
      · exact ih (n / 10) (Nat.div_lt_self (by omega) (by omega)) c hc
      · simp at hc
        subst hc
        exact digitChar_isDigit (Nat.mod_lt _ (by omega))

theorem pyNatDigits_ne_nil (n : Nat) : pyNatDigits n ≠ [] := by
  rw [pyNatDigits]
  split <;> simp

theorem decimalVal_pyNatDigits (n : Nat) : decimalVal (pyNatDigits n) = n := by
  induction n using Nat.strong_induction_on with
  | _ n ih =>
    rw [pyNatDigits]
    split
    · rename_i h
      simp [decimalVal, List.foldl]
      rw [digitVal_digitChar h]
    · rename_i h
      have hlt : n / 10 < n := Nat.div_lt_self (by omega) (by omega)
      have hrec := ih (n / 10) hlt
      unfold decimalVal at hrec ⊢
      rw [List.foldl_append, hrec, List.foldl]
      rw [digitVal_digitChar (Nat.mod_lt _ (by omega))]
      simp [List.foldl]
      omega

theorem pyIntStr_no_space (i : Int) : ' ' ∉ (pyIntStr i).data := by
  unfold pyIntStr
  split
  · intro hm
    simp at hm
    exact absurd (pyNatDigits_isDigit i.natAbs ' ' hm) (by decide)
  · intro hm
    simp at hm
    have hd := pyNatDigits_isDigit i.toNat ' ' hm
    exact absurd hd (by decide)

theorem pySplitSpace_head (a b : List Char) (h : ' ' ∉ a) :
    ∃ ts, pySplitSpace (a ++ ' ' :: b) = a :: ts := by
  induction a with
  | nil => exact ⟨pySplitSpace b, by simp [pySplitSpace]⟩
  | cons c cs ih =>
    have hc : ¬c = ' ' := fun hcc => h (by simp [hcc])
    have hcs : ' ' ∉ cs := fun hm => h (List.mem_cons_of_mem _ hm)
    obtain ⟨ts, hts⟩ := ih hcs
    exact ⟨ts, by simp [pySplitSpace, hc, hts]⟩

theorem string_mk_data (s : String) : String.mk s.data = s := rfl

theorem recover_int_dash (cs : List Char) :
    recover_int (String.mk ('-' :: cs)) = -(decimalVal cs : Int) := rfl

theorem recover_int_cons (c : Char) (cs : List Char) (h : ¬c = '-') :
    recover_int (String.mk (c :: cs)) = (decimalVal (c :: cs) : Int) := by
  unfold recover_int
  split
  · rename_i rest heq
    simp at heq
    exact absurd heq.1 h
  · rfl

/-- C6: rendering a device whose id is any integer and whose name is any
string as the menu line `"<id> <name>"` and taking the text before the
first space of that same line yields exactly the decimal rendering of the
id, and decoding that text recovers the original id exactly. -/
theorem c6_id_round_trip (i : Int) (name : String) (d : Direction) :
    split_first (render_line
      { id := Json.num i, name := Json.str name, direction := d,
        muted := none, volume := none }) = pyIntStr i ∧
    recover_int (pyIntStr i) = i := by
  constructor
  · have hdata :
        (render_line
          { id := Json.num i, name := Json.str name, direction := d,
            muted := none, volume := none }).data =
          (pyIntStr i).data ++ ' ' :: name.data := by
      show (pyIntStr i ++ " " ++ name).data = _
      simp
    unfold split_first
    rw [hdata]
    obtain ⟨ts, hts⟩ := pySplitSpace_head (pyIntStr i).data name.data (pyIntStr_no_space i)
    rw [hts]
  · by_cases hi : i < 0
    · rw [pyIntStr, if_pos hi, recover_int_dash, decimalVal_pyNatDigits]
      have habs : (i.natAbs : Int) = -i := Int.ofNat_natAbs_of_nonpos (le_of_lt hi)
      rw [habs]
      ring
    · rw [pyIntStr, if_neg hi]
      cases hdig : pyNatDigits i.toNat with
      | nil => exact absurd hdig (pyNatDigits_ne_nil i.toNat)
      | cons c cs =>
        have hc : c.isDigit = true :=
          pyNatDigits_isDigit i.toNat c (hdig ▸ List.mem_cons_self c cs)
        have hcm : ¬c = '-' := by
          intro hcc
          subst hcc
          exact absurd hc (by decide)
        rw [recover_int_cons c cs hcm, ← hdig, decimalVal_pyNatDigits]
        exact Int.toNat_of_nonneg (by omega)

end Audiomenu
